import Mathlib

/-!
Shallow embedding of the watcher profiler slice: the memory-tracking
instrumentation in watcher/common/profiler.py, the profiler configuration
options in watcher/conf/profiler.py, and the decision-engine service
lifecycle in watcher/decision_engine/service.py.

External collaborators (psutil memory sampling, the osprofiler trace
backend, the base service, the scheduler and the continuous audit handler)
are modelled as an explicit environment of outcomes, and every externally
visible action of the embedded code is recorded in an effect log.
-/

set_option autoImplicit false

namespace Watcher

/-- A Python value as it can appear as an audit correlation id: the model
covers None, booleans, integers and strings, which is enough to express
Python truthiness and str coercion as used by MemoryTracker. -/
inductive PyVal where
  | none
  | bool (b : Bool)
  | int (n : Int)
  | str (s : String)
  deriving DecidableEq, Repr

/-- Python truthiness of a PyVal, as tested by the expression
str(self.audit_id) if self.audit_id else None. -/
def PyVal.truthy : PyVal → Bool
  | .none => false
  | .bool b => b
  | .int n => n != 0
  | .str s => s != ""

/-- Python str coercion of a PyVal. -/
def PyVal.toPyStr : PyVal → String
  | .none => "None"
  | .bool b => if b then "True" else "False"
  | .int n => toString n
  | .str s => s

/-- An opaque Python exception, identified by a message. -/
inductive Exc where
  | exc (msg : String)
  deriving DecidableEq, Repr

/-- A Python dict with string keys, as returned by an info callable. -/
def Metadata : Type := List (String × PyVal)

/-- Python dict.get with default None, as in metadata.get applied to the
audit_id key. -/
def dictGet (md : Metadata) (k : String) : PyVal :=
  match md.find? (fun p => p.fst == k) with
  | some p => p.snd
  | Option.none => PyVal.none

/-- The profiler configuration options consumed by this slice.
enabled comes from the standard osprofiler option group; the two
trace flags are registered in watcher/conf/profiler.py, both with
default true. -/
structure Config where
  enabled : Bool
  trace_audit_execution : Bool
  trace_memory_usage : Bool
  deriving DecidableEq, Repr

/-- The two watcher-specific options of profiler_opts_list carry default
true, so a configuration at the defaults fixes both trace flags to true
and leaves only enabled free. -/
def defaultConfig (enabled : Bool) : Config :=
  { enabled := enabled, trace_audit_execution := true, trace_memory_usage := true }

/-- Outcomes of the external collaborators during one wrapped invocation:
whether an osprofiler session is active, the result of the rss sample
attempted on scope entry and on scope exit as a byte count or a failure,
and whether the osprofiler stop call raises. -/
structure Env where
  profilerActive : Bool
  baselineRss : Except Unit Nat
  peakRss : Except Unit Nat
  stopRaises : Bool

/-- The metadata dict passed to the osprofiler stop call by
MemoryTracker. All four keys are always present; audit_id is nullable. -/
structure StopPayload where
  memory_baseline_mb : ℚ
  memory_peak_mb : ℚ
  memory_delta_mb : ℚ
  audit_id : Option String
  deriving DecidableEq, Repr

/-- Effect log of one wrapped invocation: number of rss sampling attempts,
number of trace spans opened by the osprofiler trace decorator, the
payloads of every osprofiler stop call made by MemoryTracker, and the
subset of those calls that did not raise. -/
structure Effects where
  sampleCalls : Nat
  spans : Nat
  stopCalls : List StopPayload
  published : List StopPayload
  deriving DecidableEq, Repr

/-- The empty effect log at the start of an invocation. -/
def emptyFx : Effects :=
  { sampleCalls := 0, spans := 0, stopCalls := [], published := [] }

/-- The MemoryTracker state: trace point name, the audit id it was
constructed with, and the baseline and peak readings in MB, both absent
at construction. -/
structure MemoryTracker where
  trace_name : String
  audit_id : PyVal
  mem_baseline : Option ℚ
  mem_peak : Option ℚ
  deriving DecidableEq, Repr

/-- Tracker state paired with the effect log it has produced so far. -/
structure TState where
  tracker : MemoryTracker
  fx : Effects
  deriving DecidableEq, Repr

/-- MemoryTracker enter: when trace_memory_usage is set, attempt an rss
sample and store it, converted from bytes to MB, as the baseline; a
sampling failure is caught and leaves the baseline absent. When the flag
is unset nothing is attempted. -/
def MemoryTracker.enter (cfg : Config) (env : Env) (s : TState) : TState :=
  if cfg.trace_memory_usage then
    match env.baselineRss with
    | Except.ok rss =>
        { tracker := { s.tracker with mem_baseline := some ((rss : ℚ) / 1024 / 1024) }
          fx := { s.fx with sampleCalls := s.fx.sampleCalls + 1 } }
    | Except.error _ =>
        { tracker := { s.tracker with mem_baseline := Option.none }
          fx := { s.fx with sampleCalls := s.fx.sampleCalls + 1 } }
  else s

/-- MemoryTracker exit: only when trace_memory_usage is set and the
baseline is present, attempt a peak rss sample, store it in MB, and call
the osprofiler stop operation with baseline, peak, delta and the audit id
coerced to a string when truthy and null otherwise. A sampling failure or
a failure of the stop call is caught; the exit never suppresses the
exception of the wrapped operation. -/
def MemoryTracker.exitCtx (cfg : Config) (env : Env) (s : TState) : TState :=
  if cfg.trace_memory_usage then
    match s.tracker.mem_baseline with
    | some base =>
        match env.peakRss with
        | Except.ok rss =>
            let peak : ℚ := (rss : ℚ) / 1024 / 1024
            let payload : StopPayload :=
              { memory_baseline_mb := base
                memory_peak_mb := peak
                memory_delta_mb := peak - base
                audit_id :=
                  if s.tracker.audit_id.truthy then some s.tracker.audit_id.toPyStr
                  else Option.none }
            { tracker := { s.tracker with mem_peak := some peak }
              fx := { s.fx with
                        sampleCalls := s.fx.sampleCalls + 1
                        stopCalls := s.fx.stopCalls ++ [payload]
                        published :=
                          if env.stopRaises then s.fx.published
                          else s.fx.published ++ [payload] } }
        | Except.error _ =>
            { tracker := s.tracker
              fx := { s.fx with sampleCalls := s.fx.sampleCalls + 1 } }
    | Option.none => s
  else s

/-- The info argument of trace_with_memory: absent, a non-callable value
such as a plain dict, or a callable computing a metadata dict from the
call arguments, which may raise. -/
inductive Info (α : Type) where
  | none
  | value (md : Metadata)
  | callable (fn : α → Except Exc Metadata)

/-- The result of one invocation of a wrapped callable: the value or
exception handed back to the caller, the final tracker state, and the
effect log. -/
structure RunOut (ρ : Type) where
  result : Except Exc ρ
  tracker : MemoryTracker
  fx : Effects

/-- One invocation of the wrapper produced by trace_with_memory. The
target callable func takes the call arguments and returns a value or
raises. The wrapper first extracts audit_id: only when info is callable
it invokes it and reads the audit_id key of the returned dict, any
failure being swallowed and leaving the id at None. It then enters a
MemoryTracker, invokes the callable decorated by the external osprofiler
trace decorator, which opens and closes a span exactly when a profiler
session is active and is otherwise transparent, and finally exits the
tracker; the exit returns False so the result or exception of the
callable reaches the caller unchanged. -/
def trace_with_memory {α ρ : Type} (name : String) (info : Info α)
    (func : α → Except Exc ρ) (cfg : Config) (env : Env) (args : α) : RunOut ρ :=
  let audit_id : PyVal :=
    match info with
    | Info.callable fn =>
        match fn args with
        | Except.ok md => dictGet md "audit_id"
        | Except.error _ => PyVal.none
    | _ => PyVal.none
  let s0 : TState :=
    { tracker :=
        { trace_name := name, audit_id := audit_id
          mem_baseline := Option.none, mem_peak := Option.none }
      fx := emptyFx }
  let s1 := MemoryTracker.enter cfg env s0
  let s2 : TState :=
    { s1 with fx := { s1.fx with spans := s1.fx.spans + (if env.profilerActive then 1 else 0) } }
  let r := func args
  let s3 := MemoryTracker.exitCtx cfg env s2
  { result := r, tracker := s3.tracker, fx := s3.fx }

/-- is_profiling_enabled from watcher/common/profiler.py: the global
enabled flag conjoined with the presence of an active profiler session. -/
def is_profiling_enabled (cfg : Config) (env : Env) : Bool :=
  cfg.enabled && env.profilerActive

/-- Observable startup events of the decision engine service. -/
inductive SEvent where
  | baseStart
  | profilerInitDone
  | profilerInitFailedWarn
  | schedulerStart
  | continuousStart
  deriving DecidableEq, Repr

/-- Outcomes of the collaborators of DecisionEngineService.start: whether
the base service start, the osprofiler backend initialization, the
scheduler start and the continuous handler start succeed. -/
structure ServiceEnv where
  baseStartOk : Bool
  profilerInitOk : Bool
  schedulerStartOk : Bool
  continuousStartOk : Bool
  deriving DecidableEq, Repr

/-- DecisionEngineService.start: run the base start, whose failure
propagates; when the enabled flag is set attempt the osprofiler backend
initialization, catching any failure and logging a warning; then start
the scheduler and then the continuous handler, whose failures
propagate. -/
def DecisionEngineService.start (cfg : Config) (env : ServiceEnv) :
    Except Exc (List SEvent) :=
  if env.baseStartOk then
    let ev0 := [SEvent.baseStart]
    let ev1 :=
      if cfg.enabled then
        if env.profilerInitOk then ev0 ++ [SEvent.profilerInitDone]
        else ev0 ++ [SEvent.profilerInitFailedWarn]
      else ev0
    if env.schedulerStartOk then
      let ev2 := ev1 ++ [SEvent.schedulerStart]
      if env.continuousStartOk then Except.ok (ev2 ++ [SEvent.continuousStart])
      else Except.error (Exc.exc "continuous handler start failed")
    else Except.error (Exc.exc "scheduler start failed")
  else Except.error (Exc.exc "base service start failed")

/-- A concrete environment in which both rss samples succeed, reading
100 MB at entry and 140 MB at exit, with no active profiler session. -/
def sampleEnv : Env :=
  { profilerActive := false, baselineRss := Except.ok 104857600,
    peakRss := Except.ok 146800640, stopRaises := false }

/-- A concrete environment in which the baseline sample succeeds at
100 MB and the peak sample fails. -/
def peakFailEnv : Env :=
  { profilerActive := false, baselineRss := Except.ok 104857600,
    peakRss := Except.error (), stopRaises := false }

/-- The stop payload produced in sampleEnv with no correlation id:
baseline 100 MB, peak 140 MB, delta 40 MB. -/
def mbPayload : StopPayload :=
  { memory_baseline_mb := 100, memory_peak_mb := 140,
    memory_delta_mb := 40, audit_id := Option.none }

/-- The stop payload produced in sampleEnv with the integer correlation
id 7, published coerced to a string. -/
def intIdPayload : StopPayload :=
  { memory_baseline_mb := 100, memory_peak_mb := 140,
    memory_delta_mb := 40, audit_id := some "7" }

/-- A metadata callable that always raises. -/
def failingInfoFn : Unit → Except Exc Metadata :=
  fun _ => Except.error (Exc.exc "boom")

/-- A plain metadata dict carrying an audit_id key, used as a
non-callable info argument. -/
def auditDict : Metadata := [("audit_id", PyVal.str "u-1")]

/-- A service environment in which only profiler initialization fails. -/
def failInitEnv : ServiceEnv :=
  { baseStartOk := true, profilerInitOk := false,
    schedulerStartOk := true, continuousStartOk := true }

/-- A configuration with memory tracing switched off and everything else
at its default. -/
def cfgNoMem : Config :=
  { enabled := true, trace_audit_execution := true, trace_memory_usage := false }

/-- A MemoryTracker with the given name, audit id and readings. -/
def mkTracker (name : String) (v : PyVal) (base pk : Option ℚ) : MemoryTracker :=
  { trace_name := name, audit_id := v, mem_baseline := base, mem_peak := pk }

/-- A tracker state with an empty effect log. -/
def mkTState (t : MemoryTracker) : TState :=
  { tracker := t, fx := emptyFx }

/-- Claim C1: for every target callable, argument list, info argument,
configuration and environment, the wrapper produced by trace_with_memory
hands back exactly the value or exception of the target callable. -/
theorem trace_with_memory_transparent {α ρ : Type} (name : String)
    (info : Info α) (func : α → Except Exc ρ) (cfg : Config) (env : Env)
    (args : α) :
    (trace_with_memory name info func cfg env args).result = func args := by
  rfl

/-- Claim C2: evidence at the failing input. With trace_audit_execution set to
false and a profiler session active, invoking a wrapped callable still
opens a trace span: trace_with_memory applies the osprofiler trace
decorator unconditionally and never consults trace_audit_execution, so
the flag does not gate span creation as the claim states. -/
theorem span_created_despite_trace_audit_execution_false :
    (trace_with_memory "watcher-audit-execute" (Info.none : Info Unit)
      (fun _ => Except.ok (42 : Int))
      { enabled := true, trace_audit_execution := false, trace_memory_usage := true }
      { profilerActive := true, baselineRss := Except.ok 104857600,
        peakRss := Except.ok 146800640, stopRaises := false }
      ()).fx.spans = 1 := by
  rfl

/-- Claim C5: when the base service, the scheduler and the continuous handler
all start successfully, profiler backend initialization failing with the
enabled flag set does not make DecisionEngineService.start raise: the
failure is logged as a warning and both the scheduler and the continuous
handler are still started, in that order. -/
theorem decision_engine_start_survives_profiler_init_failure
    (cfg : Config) (env : ServiceEnv) (henabled : cfg.enabled = true)
    (hbase : env.baseStartOk = true) (hsched : env.schedulerStartOk = true)
    (hcont : env.continuousStartOk = true) (hinit : env.profilerInitOk = false) :
    DecisionEngineService.start cfg env =
      Except.ok [SEvent.baseStart, SEvent.profilerInitFailedWarn,
        SEvent.schedulerStart, SEvent.continuousStart] := by
  simp [DecisionEngineService.start, henabled, hbase, hsched, hcont, hinit]

/-- Claim C5 witness: a concrete run with profiler initialization failing and
every other collaborator succeeding. -/
theorem decision_engine_start_survives_profiler_init_failure_witness :
    (defaultConfig true).enabled = true ∧ failInitEnv.baseStartOk = true ∧
    failInitEnv.schedulerStartOk = true ∧ failInitEnv.continuousStartOk = true ∧
    failInitEnv.profilerInitOk = false ∧
    DecisionEngineService.start (defaultConfig true) failInitEnv =
      Except.ok [SEvent.baseStart, SEvent.profilerInitFailedWarn,
        SEvent.schedulerStart, SEvent.continuousStart] :=
  ⟨rfl, rfl, rfl, rfl, rfl,
    decision_engine_start_survives_profiler_init_failure _ _ rfl rfl rfl rfl rfl⟩

/-- Claim C6: with trace_memory_usage false, an invocation of a wrapped
callable attempts no memory sample at all and makes no osprofiler stop
call, so no memory key is ever published to the span. -/
theorem no_sampling_when_trace_memory_usage_false {α ρ : Type} (name : String)
    (info : Info α) (func : α → Except Exc ρ) (cfg : Config) (env : Env)
    (args : α) (h : cfg.trace_memory_usage = false) :
    (trace_with_memory name info func cfg env args).fx.sampleCalls = 0 ∧
    (trace_with_memory name info func cfg env args).fx.stopCalls = [] ∧
    (trace_with_memory name info func cfg env args).fx.published = [] := by
  simp [trace_with_memory, MemoryTracker.enter, MemoryTracker.exitCtx, h, emptyFx]

/-- Claim C6 witness: a concrete run with trace_memory_usage false and every
sampling outcome available, which is nevertheless never consulted. -/
theorem no_sampling_when_trace_memory_usage_false_witness :
    cfgNoMem.trace_memory_usage = false ∧
    ((trace_with_memory "op-a" (Info.none : Info Unit) (fun _ => Except.ok (1 : Int))
        cfgNoMem sampleEnv ()).fx.sampleCalls = 0 ∧
      (trace_with_memory "op-a" (Info.none : Info Unit) (fun _ => Except.ok (1 : Int))
        cfgNoMem sampleEnv ()).fx.stopCalls = [] ∧
      (trace_with_memory "op-a" (Info.none : Info Unit) (fun _ => Except.ok (1 : Int))
        cfgNoMem sampleEnv ()).fx.published = []) :=
  ⟨rfl, no_sampling_when_trace_memory_usage_false _ _ _ _ _ _ rfl⟩

/-- Claim C3 counterexample: with profiler.enabled false and the other
options at their defaults, invoking the wrapper returns the plain value,
yet the osprofiler stop operation is still called once: MemoryTracker
gates on trace_memory_usage only and never consults the enabled flag, so
the publication call count is not zero as the claim states. -/
theorem stop_called_when_profiler_disabled :
    (trace_with_memory "op-a" (Info.none : Info Unit) (fun _ => Except.ok (7 : Int))
      (defaultConfig false) sampleEnv ()).result = Except.ok 7 ∧
    (trace_with_memory "op-a" (Info.none : Info Unit) (fun _ => Except.ok (7 : Int))
      (defaultConfig false) sampleEnv ()).fx.stopCalls ≠ [] := by
  refine ⟨rfl, ?_⟩
  simp [trace_with_memory, MemoryTracker.enter, MemoryTracker.exitCtx,
    emptyFx, sampleEnv, defaultConfig]

/-- Claim C3 amended: with profiler.enabled false and the other options at
their defaults, the wrapper returns the same value as the plain callable
and no span is opened when no profiler session is active; however memory
sampling still occurs, and when both samples succeed exactly one call to
the trace-backend stop operation is made. -/
theorem trace_with_memory_profiler_disabled {α ρ : Type} (name : String)
    (info : Info α) (func : α → Except Exc ρ) (env : Env) (args : α)
    (b p : Nat) (hact : env.profilerActive = false)
    (hb : env.baselineRss = Except.ok b) (hp : env.peakRss = Except.ok p) :
    (trace_with_memory name info func (defaultConfig false) env args).result = func args ∧
    (trace_with_memory name info func (defaultConfig false) env args).fx.spans = 0 ∧
    (trace_with_memory name info func (defaultConfig false) env args).fx.sampleCalls = 2 ∧
    (trace_with_memory name info func (defaultConfig false) env args).fx.stopCalls.length = 1 := by
  simp [trace_with_memory, MemoryTracker.enter, MemoryTracker.exitCtx,
    defaultConfig, emptyFx, hact, hb, hp]

/-- Claim C3 amended witness: a concrete run with the profiler disabled
and both samples succeeding. -/
theorem trace_with_memory_profiler_disabled_witness :
    sampleEnv.profilerActive = false ∧
    sampleEnv.baselineRss = Except.ok 104857600 ∧
    sampleEnv.peakRss = Except.ok 146800640 ∧
    ((trace_with_memory "op-a" (Info.none : Info Unit) (fun _ => Except.ok (7 : Int))
        (defaultConfig false) sampleEnv ()).result = (fun _ : Unit => Except.ok (7 : Int)) () ∧
      (trace_with_memory "op-a" (Info.none : Info Unit) (fun _ => Except.ok (7 : Int))
        (defaultConfig false) sampleEnv ()).fx.spans = 0 ∧
      (trace_with_memory "op-a" (Info.none : Info Unit) (fun _ => Except.ok (7 : Int))
        (defaultConfig false) sampleEnv ()).fx.sampleCalls = 2 ∧
      (trace_with_memory "op-a" (Info.none : Info Unit) (fun _ => Except.ok (7 : Int))
        (defaultConfig false) sampleEnv ()).fx.stopCalls.length = 1) :=
  ⟨rfl, rfl, rfl,
    trace_with_memory_profiler_disabled _ _ _ _ _ 104857600 146800640 rfl rfl rfl⟩

/-- Claim C4 counterexample: in a run where the baseline sample succeeds
and the peak sample fails, the baseline is populated while the peak is
neither populated nor published, so populated-and-published peak is not
equivalent to populated baseline. -/
theorem peak_publication_iff_baseline_counterexample :
    ¬ (((trace_with_memory "op-a" (Info.none : Info Unit) (fun _ => Except.ok (1 : Int))
          (defaultConfig true) peakFailEnv ()).tracker.mem_peak.isSome = true ∧
        (trace_with_memory "op-a" (Info.none : Info Unit) (fun _ => Except.ok (1 : Int))
          (defaultConfig true) peakFailEnv ()).fx.stopCalls ≠ []) ↔
       (trace_with_memory "op-a" (Info.none : Info Unit) (fun _ => Except.ok (1 : Int))
          (defaultConfig true) peakFailEnv ()).tracker.mem_baseline.isSome = true) := by
  decide

/-- Claim C4 amended: peak and delta are populated or published only if
the baseline was populated: whenever the final tracker carries a peak
reading or any stop call was made, the baseline is present; in particular
a failed baseline sample publishes nothing for that invocation. -/
theorem no_partial_measurement {α ρ : Type} (name : String) (info : Info α)
    (func : α → Except Exc ρ) (cfg : Config) (env : Env) (args : α)
    (h : (trace_with_memory name info func cfg env args).tracker.mem_peak.isSome = true ∨
      (trace_with_memory name info func cfg env args).fx.stopCalls ≠ []) :
    (trace_with_memory name info func cfg env args).tracker.mem_baseline.isSome = true := by
  cases hm : cfg.trace_memory_usage <;>
    cases hb : env.baselineRss <;>
      cases hp : env.peakRss <;>
        simp_all [trace_with_memory, MemoryTracker.enter, MemoryTracker.exitCtx, emptyFx]

/-- Claim C4 amended witness: a run in which both samples succeed, so the
peak is populated and the baseline is indeed present. -/
theorem no_partial_measurement_witness :
    ((trace_with_memory "op-a" (Info.none : Info Unit) (fun _ => Except.ok (1 : Int))
        (defaultConfig true) sampleEnv ()).tracker.mem_peak.isSome = true ∨
      (trace_with_memory "op-a" (Info.none : Info Unit) (fun _ => Except.ok (1 : Int))
        (defaultConfig true) sampleEnv ()).fx.stopCalls ≠ []) ∧
    (trace_with_memory "op-a" (Info.none : Info Unit) (fun _ => Except.ok (1 : Int))
      (defaultConfig true) sampleEnv ()).tracker.mem_baseline.isSome = true :=
  ⟨Or.inl (by decide), no_partial_measurement _ _ _ _ _ _ (Or.inl (by decide))⟩

/-- Claim C7: when the info callable raises on the call arguments, the
failure is swallowed: the wrapped operation still runs and its value or
exception is handed back unchanged, the tracker carries no correlation
id, and every stop payload of the invocation publishes a null audit_id. -/
theorem metadata_fn_failure_swallowed {α ρ : Type} (name : String)
    (fn : α → Except Exc Metadata) (func : α → Except Exc ρ) (cfg : Config)
    (env : Env) (args : α) (e : Exc) (h : fn args = Except.error e) :
    (trace_with_memory name (Info.callable fn) func cfg env args).result = func args ∧
    (trace_with_memory name (Info.callable fn) func cfg env args).tracker.audit_id = PyVal.none ∧
    ∀ q ∈ (trace_with_memory name (Info.callable fn) func cfg env args).fx.stopCalls,
      q.audit_id = Option.none := by
  refine ⟨rfl, ?_, ?_⟩ <;>
    cases hm : cfg.trace_memory_usage <;>
      cases hb : env.baselineRss <;>
        cases hp : env.peakRss <;>
          simp_all [trace_with_memory, MemoryTracker.enter, MemoryTracker.exitCtx,
            emptyFx, PyVal.truthy]

/-- Claim C7 witness: a concrete run whose info callable raises; the
result is the plain value, and the one published payload carries a null
audit_id. -/
theorem metadata_fn_failure_swallowed_witness :
    failingInfoFn () = Except.error (Exc.exc "boom") ∧
    (trace_with_memory "op-a" (Info.callable failingInfoFn)
      (fun _ => Except.ok (3 : Int)) (defaultConfig true) sampleEnv ()).result =
      (fun _ : Unit => Except.ok (3 : Int)) () ∧
    (trace_with_memory "op-a" (Info.callable failingInfoFn)
      (fun _ => Except.ok (3 : Int)) (defaultConfig true) sampleEnv ()).tracker.audit_id =
      PyVal.none ∧
    mbPayload ∈ (trace_with_memory "op-a" (Info.callable failingInfoFn)
      (fun _ => Except.ok (3 : Int)) (defaultConfig true) sampleEnv ()).fx.stopCalls ∧
    mbPayload.audit_id = Option.none :=
  ⟨rfl,
    (metadata_fn_failure_swallowed "op-a" failingInfoFn (fun _ => Except.ok (3 : Int))
      (defaultConfig true) sampleEnv () (Exc.exc "boom") rfl).1,
    (metadata_fn_failure_swallowed "op-a" failingInfoFn (fun _ => Except.ok (3 : Int))
      (defaultConfig true) sampleEnv () (Exc.exc "boom") rfl).2.1,
    by norm_num [trace_with_memory, MemoryTracker.enter, MemoryTracker.exitCtx,
        emptyFx, sampleEnv, defaultConfig, mbPayload, failingInfoFn, PyVal.truthy],
    (metadata_fn_failure_swallowed "op-a" failingInfoFn (fun _ => Except.ok (3 : Int))
      (defaultConfig true) sampleEnv () (Exc.exc "boom") rfl).2.2 mbPayload
      (by norm_num [trace_with_memory, MemoryTracker.enter, MemoryTracker.exitCtx,
        emptyFx, sampleEnv, defaultConfig, mbPayload, failingInfoFn, PyVal.truthy])⟩

/-- Claim C8: every payload handed to the osprofiler stop operation
satisfies memory_delta_mb equal to memory_peak_mb minus
memory_baseline_mb exactly; in particular this holds for every invocation
in which both samples succeed. -/
theorem memory_delta_exact {α ρ : Type} (name : String) (info : Info α)
    (func : α → Except Exc ρ) (cfg : Config) (env : Env) (args : α)
    (q : StopPayload)
    (h : q ∈ (trace_with_memory name info func cfg env args).fx.stopCalls) :
    q.memory_delta_mb = q.memory_peak_mb - q.memory_baseline_mb := by
  cases hm : cfg.trace_memory_usage <;>
    cases hb : env.baselineRss <;>
      cases hp : env.peakRss <;>
        simp_all [trace_with_memory, MemoryTracker.enter, MemoryTracker.exitCtx, emptyFx]

/-- Claim C8 witness: the scenario of the spec, baseline 100 MB and peak
140 MB, publishes a delta of exactly 40 MB. -/
theorem memory_delta_exact_witness :
    mbPayload ∈ (trace_with_memory "op-a" (Info.none : Info Unit)
      (fun _ => Except.ok (1 : Int)) (defaultConfig true) sampleEnv ()).fx.stopCalls ∧
    mbPayload.memory_delta_mb = mbPayload.memory_peak_mb - mbPayload.memory_baseline_mb :=
  ⟨by norm_num [trace_with_memory, MemoryTracker.enter, MemoryTracker.exitCtx,
      emptyFx, sampleEnv, defaultConfig, mbPayload, PyVal.truthy],
    memory_delta_exact "op-a" (Info.none : Info Unit) (fun _ => Except.ok (1 : Int))
      (defaultConfig true) sampleEnv () mbPayload
      (by norm_num [trace_with_memory, MemoryTracker.enter, MemoryTracker.exitCtx,
        emptyFx, sampleEnv, defaultConfig, mbPayload, PyVal.truthy])⟩

/-- Claim C9: every payload published by a MemoryTracker exit carries as
audit_id the str coercion of the audit id the tracker was constructed
with when that id is truthy, and null otherwise: a falsy id such as None,
False, zero or the empty string is published as null, and a truthy
non-string id is coerced to its string form. -/
theorem audit_id_published_as_str_iff_truthy (cfg : Config) (env : Env)
    (name : String) (v : PyVal) (base pk : Option ℚ) (q : StopPayload)
    (h : q ∈ (MemoryTracker.exitCtx cfg env
      (mkTState (mkTracker name v base pk))).fx.stopCalls) :
    q.audit_id = if v.truthy then some v.toPyStr else Option.none := by
  cases hm : cfg.trace_memory_usage <;>
    cases hb : base <;>
      cases hp : env.peakRss <;>
        simp_all [MemoryTracker.exitCtx, emptyFx, mkTState, mkTracker]

/-- Claim C9 witness: a tracker constructed with the integer audit id 7
publishes the string form of that id. -/
theorem audit_id_published_as_str_iff_truthy_witness :
    intIdPayload ∈ (MemoryTracker.exitCtx (defaultConfig true) sampleEnv
      (mkTState (mkTracker "op-a" (PyVal.int 7) (some 100) Option.none))).fx.stopCalls ∧
    intIdPayload.audit_id =
      if (PyVal.int 7).truthy then some (PyVal.int 7).toPyStr else Option.none :=
  ⟨by
      norm_num [MemoryTracker.exitCtx, emptyFx, mkTState, mkTracker, sampleEnv,
        defaultConfig, intIdPayload, PyVal.truthy, PyVal.toPyStr]
      rfl,
    audit_id_published_as_str_iff_truthy (defaultConfig true) sampleEnv "op-a"
      (PyVal.int 7) (some 100) Option.none intIdPayload
      (by
        norm_num [MemoryTracker.exitCtx, emptyFx, mkTState, mkTracker, sampleEnv,
          defaultConfig, intIdPayload, PyVal.truthy, PyVal.toPyStr]
        rfl)⟩

/-- Claim C10: with a non-callable info argument, here a plain metadata
dict even when it contains an audit_id key, the wrapper never extracts a
correlation id: the tracker id stays None and every published payload
carries a null audit_id. -/
theorem non_callable_info_yields_no_audit_id {α ρ : Type} (name : String)
    (md : Metadata) (func : α → Except Exc ρ) (cfg : Config) (env : Env)
    (args : α) :
    (trace_with_memory name (Info.value md) func cfg env args).tracker.audit_id = PyVal.none ∧
    ∀ q ∈ (trace_with_memory name (Info.value md) func cfg env args).fx.stopCalls,
      q.audit_id = Option.none := by
  refine ⟨?_, ?_⟩ <;>
    cases hm : cfg.trace_memory_usage <;>
      cases hb : env.baselineRss <;>
        cases hp : env.peakRss <;>
          simp_all [trace_with_memory, MemoryTracker.enter, MemoryTracker.exitCtx,
            emptyFx, PyVal.truthy]

/-- Claim C10 witness: a concrete run whose info argument is a plain dict
holding an audit_id key; the tracker id is None and the one published
payload carries a null audit_id. -/
theorem non_callable_info_yields_no_audit_id_witness :
    (trace_with_memory "op-a" (Info.value auditDict) (fun _ : Unit => Except.ok (1 : Int))
      (defaultConfig true) sampleEnv ()).tracker.audit_id = PyVal.none ∧
    mbPayload ∈ (trace_with_memory "op-a" (Info.value auditDict)
      (fun _ : Unit => Except.ok (1 : Int)) (defaultConfig true) sampleEnv ()).fx.stopCalls ∧
    mbPayload.audit_id = Option.none :=
  ⟨(non_callable_info_yields_no_audit_id "op-a" auditDict
      (fun _ : Unit => Except.ok (1 : Int)) (defaultConfig true) sampleEnv ()).1,
    by norm_num [trace_with_memory, MemoryTracker.enter, MemoryTracker.exitCtx,
      emptyFx, sampleEnv, defaultConfig, mbPayload, auditDict, PyVal.truthy],
    (non_callable_info_yields_no_audit_id "op-a" auditDict
      (fun _ : Unit => Except.ok (1 : Int)) (defaultConfig true) sampleEnv ()).2 mbPayload
      (by norm_num [trace_with_memory, MemoryTracker.enter, MemoryTracker.exitCtx,
        emptyFx, sampleEnv, defaultConfig, mbPayload, auditDict, PyVal.truthy])⟩

end Watcher
